import Mathlib

/-!
Verification development for the stock alerting / paper trading server.

The Rust sources are shallowly embedded:
  * src/src/protocol.rs  : message types, wire encoding, parsing
  * src/src/database.rs  : persistence operations over an explicit state
  * src/src/bin/server.rs: per line session handling and alert evaluation

Modelling conventions:
  * f64 fields (prices, thresholds, cost basis) are modelled as rationals;
    the decimal printing and parsing used on the wire are modelled by
    executable functions restricted to plain decimal literals.
  * i32 fields are modelled as integers; the i32 range check of
    str parse is kept, arithmetic overflow is idealized (a Rust debug
    build panics on overflow rather than wrapping).
  * sqlite tables are modelled as lists of rows.  The schema file
    querys.sql is referenced from the sources via include_str but is not
    part of the visible sources; the row shapes are taken from the
    queries in database.rs and from the spec, section 3.
  * argon2 hashing and hash verification are modelled as parameters,
    since hashing draws a random salt.
-/

namespace StockServer

/-- Alert direction, from protocol.rs. -/
inductive AlertDirection : Type where
  | above : AlertDirection
  | below : AlertDirection
deriving DecidableEq, Repr

/-- AlertDirection::as_str from protocol.rs. -/
def AlertDirection.as_str : AlertDirection → String
  | .above => "ABOVE"
  | .below => "BELOW"

/-- AlertDirection::as_msg from protocol.rs. -/
def AlertDirection.as_msg (token : String) : Option AlertDirection :=
  if token = "ABOVE" then some .above
  else if token = "BELOW" then some .below
  else none

/-- Price wrapper from protocol.rs; f64 modelled as a rational. -/
structure Price : Type where
  value : ℚ
deriving DecidableEq, Repr

/-- AlertRequest from protocol.rs. -/
structure AlertRequest : Type where
  symbol : String
  direction : AlertDirection
  threshold : ℚ
deriving DecidableEq, Repr

/-- StoredAlert from database.rs. -/
structure StoredAlert : Type where
  symbol : String
  direction : AlertDirection
  threshold : ℚ
deriving DecidableEq, Repr

/-- PortfolioStock from database.rs. -/
structure PortfolioStock : Type where
  symbol : String
  quantity : ℤ
  total_price : ℚ
deriving DecidableEq, Repr

/-- ClientMsg from protocol.rs. -/
inductive ClientMsg : Type where
  | addAlert (alert : AlertRequest)
  | removeAlert (symbol : String) (direction : AlertDirection)
  | registerClient (username : String) (password : String)
  | loginClient (username : String) (password : String)
  | checkPrice (symbol : String)
  | buyStock (symbol : String) (quantity : ℤ)
  | sellStock (symbol : String) (quantity : ℤ)
  | getAllClientData
deriving DecidableEq, Repr

/-- ServerMsg from protocol.rs. -/
inductive ServerMsg : Type where
  | alertTriggered (symbol : String) (direction : AlertDirection)
      (threshold : ℚ) (current_price : Price)
  | alertAdded (symbol : String) (direction : AlertDirection) (threshold : ℚ)
  | alertRemoved (symbol : String) (direction : AlertDirection)
  | userLogged
  | userRegistered
  | priceChecked (symbol : String) (price : ℚ)
  | stockBought (symbol : String) (quantity : ℤ)
  | stockSold (symbol : String) (quantity : ℤ)
  | allClientData (stocks : List PortfolioStock) (alerts : List StoredAlert)
  | error (msg : String)
deriving DecidableEq, Repr

/-! Command tokens, from protocol.rs. -/

def CMD_ADD : String := "ADD"
def CMD_DEL : String := "DEL"
def CMD_TRIGGER : String := "TRIGGER"
def CMD_ALERT_ADDED : String := "ALERTADDED"
def CMD_ERR : String := "ERR"
def CMD_LOGIN : String := "LOGIN"
def CMD_REGISTER : String := "REGISTER"
def CMD_PRICE : String := "PRICE"
def CMD_BUY : String := "BUY"
def CMD_SELL : String := "SELL"
def CMD_BOUGHT : String := "BOUGHT"
def CMD_SOLD : String := "SOLD"
def CMD_DATA : String := "DATA"
def CMD_ALERT_DELETED : String := "ALERTDELETED"

/-! ### Decimal text, modelling the numeric fields of the wire format

Rust prints f64 fields with Display and parses them with str parse.
The model works over rationals and restricts parsing to plain decimal
literals (optional sign, digits, optional fraction part), which covers
every value the printers below produce. -/

/-- Value of a digit character sequence, most significant first. -/
def digits_val (cs : List Char) : ℕ :=
  cs.foldl (fun a c => a * 10 + (c.toNat - 48)) 0

/-- Take the longest digit run from the front, returning it and the rest. -/
def read_digits (cs : List Char) : List Char × List Char :=
  cs.span Char.isDigit

/-- Model of str parse to f64, restricted to plain decimal literals
(optional sign, integer digits, optional fraction digits). -/
def parse_f64 (s : String) : Option ℚ :=
  let step1 : ℤ × List Char :=
    match s.toList with
    | '-' :: r => (-1, r)
    | '+' :: r => (1, r)
    | r => (1, r)
  let ipart := read_digits step1.2
  match ipart.2 with
  | [] =>
    if ipart.1.isEmpty then none
    else some (mkRat (step1.1 * digits_val ipart.1) 1)
  | '.' :: r2 =>
    let fpart := read_digits r2
    if fpart.2.isEmpty && !(ipart.1.isEmpty && fpart.1.isEmpty) then
      some (mkRat
        (step1.1 * (digits_val ipart.1 * 10 ^ fpart.1.length + digits_val fpart.1))
        (10 ^ fpart.1.length))
    else none
  | _ => none

/-- Model of str parse to i32: decimal integer within the i32 range. -/
def parse_i32 (s : String) : Option ℤ :=
  let step1 : ℤ × List Char :=
    match s.toList with
    | '-' :: r => (-1, r)
    | '+' :: r => (1, r)
    | r => (1, r)
  if !step1.2.isEmpty && step1.2.all Char.isDigit then
    let v : ℤ := step1.1 * digits_val step1.2
    if -2147483648 ≤ v ∧ v ≤ 2147483647 then some v else none
  else none

/-- Fraction digits of r / d, fuel bounded; stops when the remainder is 0. -/
def frac_digits : ℕ → ℕ → ℕ → List Char
  | 0, _, _ => []
  | fuel + 1, r, d =>
    if r = 0 then []
    else Char.ofNat (48 + r * 10 / d) :: frac_digits fuel (r * 10 % d) d

/-- Decimal text of a nonnegative rational, as f64 Display prints it
(no trailing ".0" on integral values). -/
def print_f64_nonneg (q : ℚ) : String :=
  let n := q.num.toNat
  let d := q.den
  if n % d = 0 then toString (n / d)
  else toString (n / d) ++ "." ++ String.mk (frac_digits 64 (n % d) d)

/-- Model of f64 Display used by format in to_wire. -/
def print_f64 (q : ℚ) : String :=
  if q < 0 then "-" ++ print_f64_nonneg (-q) else print_f64_nonneg q

/-- Model of i32 Display used by format in to_wire. -/
def print_i32 (n : ℤ) : String := toString n

/-! ### Alert trigger predicates

The same two line match appears verbatim at both places in server.rs:
inside prepare_new_alert (the inline check on AddAlert) and inside
check_alerts_for_user (the periodic per user check).  Each occurrence is
translated separately so that their agreement is a theorem, not a
modelling assumption. -/

/-- The trigger check inlined in prepare_new_alert, server.rs lines 173-176. -/
def prepare_new_alert_triggered (direction : AlertDirection)
    (threshold current_value : ℚ) : Bool :=
  match direction with
  | .above => current_value > threshold
  | .below => current_value < threshold

/-- The trigger check inlined in check_alerts_for_user, server.rs lines 244-247. -/
def check_alerts_triggered (direction : AlertDirection)
    (threshold current_price : ℚ) : Bool :=
  match direction with
  | .above => current_price > threshold
  | .below => current_price < threshold

/-! ### Persistence store, from database.rs

The sqlite database is modelled as explicit lists of rows.  Storage
level failures (pool exhaustion, I/O errors) are not modelled: every
query succeeds, so the only Err results are the ones database.rs builds
itself.  The alert direction column stores the text produced by as_str,
exactly as the INSERT in add_alert binds it. -/

/-- A row of the users table (id, unique username, password hash). -/
structure UserRec : Type where
  id : ℤ
  username : String
  password_hash : String
deriving DecidableEq, Repr

/-- A row of the alerts table; direction is stored as its as_str text. -/
structure AlertRow : Type where
  user_id : ℤ
  symbol : String
  direction : String
  threshold : ℚ
deriving DecidableEq, Repr

/-- A row of the positions table. -/
structure PositionRow : Type where
  user_id : ℤ
  symbol : String
  quantity : ℤ
  price_total : ℚ
deriving DecidableEq, Repr

/-- The database state: the three tables, plus the next autoincrement
user id (the users table has an integer primary key). -/
structure Db : Type where
  users : List UserRec
  alerts : List AlertRow
  positions : List PositionRow
  next_user_id : ℤ
deriving DecidableEq, Repr

/-- The freshly initialised database. -/
def empty_db : Db := { users := [], alerts := [], positions := [], next_user_id := 1 }

/-- SELECT quantity, price_total FROM positions WHERE user_id AND symbol,
with fetch_optional (first matching row). -/
def find_position (db : Db) (user_id : ℤ) (symbol : String) : Option PositionRow :=
  db.positions.find? (fun r => r.user_id = user_id && r.symbol = symbol)

/-- UPDATE positions SET quantity, price_total WHERE user_id AND symbol. -/
def update_position (db : Db) (user_id : ℤ) (symbol : String)
    (quantity : ℤ) (price_total : ℚ) : Db :=
  { db with positions := db.positions.map (fun r =>
      if r.user_id = user_id && r.symbol = symbol then
        { r with quantity := quantity, price_total := price_total }
      else r) }

/-- buy_stock from database.rs: read the current row; if present add the
bought quantity and signed cost, otherwise insert a fresh row. -/
def buy_stock (db : Db) (user_id : ℤ) (symbol : String)
    (quantity : ℤ) (current_price : ℚ) : Db :=
  match find_position db user_id symbol with
  | some row =>
    update_position db user_id symbol (row.quantity + quantity)
      (row.price_total + quantity * current_price)
  | none =>
    { db with positions :=
        db.positions ++ [⟨user_id, symbol, quantity, current_price * quantity⟩] }

/-- buy_stock wrapped in the Result type it has in database.rs; in this
model the storage layer never fails, so the result is always Ok. -/
def buy_stock_res (db : Db) (user_id : ℤ) (symbol : String)
    (quantity : ℤ) (current_price : ℚ) : Except String Db :=
  .ok (buy_stock db user_id symbol quantity current_price)

/-- sell_stock from database.rs: read the current row, reject a missing
position, reject an oversell with a message carrying the held quantity,
otherwise subtract the sold quantity and the proceeds. -/
def sell_stock (db : Db) (user_id : ℤ) (symbol : String)
    (quantity : ℤ) (stock_price : ℚ) : Except String Db :=
  match find_position db user_id symbol with
  | none => .error "You have no stocks of this company."
  | some row =>
    if row.quantity < quantity then
      .error ("You have only " ++ print_i32 row.quantity ++ " actions of given stock!.")
    else
      .ok (update_position db user_id symbol (row.quantity - quantity)
        (row.price_total - quantity * stock_price))

/-- The existence check of add_alert: SELECT 1 FROM alerts WHERE user_id
AND symbol AND direction LIMIT 1.  The Rust call also binds the
threshold, but the query has only three parameters and sqlx silently
drops the extra bind, so the check is on the (user, symbol, direction)
tuple only. -/
def alert_exists (db : Db) (user_id : ℤ) (symbol : String)
    (direction : AlertDirection) : Bool :=
  db.alerts.any (fun r =>
    r.user_id = user_id && r.symbol = symbol && r.direction = direction.as_str)

/-- add_alert from database.rs: check then insert. -/
def add_alert (db : Db) (user_id : ℤ) (alert : AlertRequest) : Except String Db :=
  if alert_exists db user_id alert.symbol alert.direction then
    .error "Alert already exists"
  else
    .ok { db with alerts :=
      db.alerts ++ [⟨user_id, alert.symbol, alert.direction.as_str, alert.threshold⟩] }

/-- remove_alert from database.rs: DELETE WHERE user_id AND symbol AND
direction; deleting nothing is not an error. -/
def remove_alert (db : Db) (user_id : ℤ) (symbol : String)
    (direction : AlertDirection) : Db :=
  { db with alerts := db.alerts.filter (fun r =>
      !(r.user_id = user_id && r.symbol = symbol && r.direction = direction.as_str)) }

/-- remove_alert wrapped in its Result type; always Ok in this model. -/
def remove_alert_res (db : Db) (user_id : ℤ) (symbol : String)
    (direction : AlertDirection) : Except String Db :=
  .ok (remove_alert db user_id symbol direction)

/-- get_user_alerts from database.rs: rows of this user whose stored
direction text parses back through as_msg. -/
def get_user_alerts (db : Db) (user_id : ℤ) : List StoredAlert :=
  db.alerts.filterMap (fun r =>
    if r.user_id = user_id then
      (AlertDirection.as_msg r.direction).map
        (fun d => ⟨r.symbol, d, r.threshold⟩)
    else none)

/-- get_portfolio from database.rs. -/
def get_portfolio (db : Db) (user_id : ℤ) : List PortfolioStock :=
  db.positions.filterMap (fun r =>
    if r.user_id = user_id then some ⟨r.symbol, r.quantity, r.price_total⟩
    else none)

/-- The password hashing machinery of database.rs (argon2), abstracted:
hash is used by register_user (the random salt is folded into the
parameter), parse_hash models PasswordHash::new on the stored text, and
verify models Argon2::verify_password against the parsed hash. -/
structure CryptoModel (H : Type) : Type where
  hash : String → String
  parse_hash : String → Except String H
  verify : String → H → Bool

/-- SELECT id, password_hash FROM users WHERE username, fetch_optional. -/
def find_user (db : Db) (username : String) : Option UserRec :=
  db.users.find? (fun r => r.username = username)

/-- register_user from database.rs: hash, INSERT; a UNIQUE constraint
violation on the username becomes the user exists error. -/
def register_user {H : Type} (cm : CryptoModel H) (db : Db)
    (username password : String) : Except String Db :=
  if (find_user db username).isSome then
    .error "User already exists"
  else
    .ok { db with
      users := db.users ++ [⟨db.next_user_id, username, cm.hash password⟩],
      next_user_id := db.next_user_id + 1 }

/-- login_user from database.rs: fetch the row by username; parse the
stored hash; verify; fall through to one fixed invalid credentials
error both when the user is missing and when verification fails. -/
def login_user {H : Type} (cm : CryptoModel H) (db : Db)
    (username password : String) : Except String ℤ :=
  match find_user db username with
  | some row =>
    match cm.parse_hash row.password_hash with
    | .error e => .error e
    | .ok h =>
      if cm.verify password h then .ok row.id
      else .error "Invalid username or password"
  | none => .error "Invalid username or password"

/-! ### Session handling, from server.rs

handle_client processes one decoded line at a time.  Its effect on the
session is modelled as a pure step: given the authentication state, the
database and a snapshot of the price cache, one input line yields the
new authentication state, the new database, and the ordered list of
messages written to the socket.  Socket and logging failures are not
modelled. -/

/-- The shared price cache, read under the lock as a snapshot. -/
def PriceMap : Type := List (String × ℚ)

/-- HashMap::get on the price cache (check_price_of_stock in server.rs). -/
def check_price_of_stock (prices : PriceMap) (stock : String) : Option ℚ :=
  (List.find? (fun p => p.1 = stock) prices).map (fun p => p.2)

/-- prepare_new_alert from server.rs: with a cached price, first the
inline trigger check (possibly emitting TRIGGER), then add_alert,
emitting ALERTADDED on success and ERR on failure; without a cached
price only the stock not available error. -/
def prepare_new_alert (db : Db) (prices : PriceMap) (user_id : ℤ)
    (alert : AlertRequest) : Db × List ServerMsg :=
  match check_price_of_stock prices alert.symbol with
  | some current_value =>
    let trig : List ServerMsg :=
      if prepare_new_alert_triggered alert.direction alert.threshold current_value then
        [.alertTriggered alert.symbol alert.direction alert.threshold ⟨current_value⟩]
      else []
    match add_alert db user_id alert with
    | .ok db' =>
      (db', trig ++ [.alertAdded alert.symbol alert.direction alert.threshold])
    | .error e => (db, trig ++ [.error e])
  | none => (db, [.error "Stock not available!"])

/-- check_alerts_for_user from server.rs: for every stored alert of the
user whose symbol has a cached price and whose periodic check fires,
one TRIGGER message, in alert order. -/
def check_alerts_for_user (db : Db) (prices : PriceMap) (user_id : ℤ) :
    List ServerMsg :=
  (get_user_alerts db user_id).filterMap (fun alert =>
    match check_price_of_stock prices alert.symbol with
    | some current_price =>
      if check_alerts_triggered alert.direction alert.threshold current_price then
        some (.alertTriggered alert.symbol alert.direction alert.threshold
          ⟨current_price⟩)
      else none
    | none => none)

/-- The messages the BuyStock branch of handle_client writes once a
price is cached, as a function of the database result (server.rs lines
341-360): an ERR on failure, and then the BOUGHT line unconditionally,
because the send is not inside an else. -/
def buy_branch_msgs (symbol : String) (quantity : ℤ)
    (res : Except String Unit) : List ServerMsg :=
  (match res with
   | .error e => [ServerMsg.error e]
   | .ok _ => []) ++ [ServerMsg.stockBought symbol quantity]

/-- The messages the RemoveAlert branch of handle_client writes, as a
function of the database result (server.rs lines 287-300): an ERR on
failure, and then the ALERTDELETED line unconditionally. -/
def remove_branch_msgs (symbol : String) (direction : AlertDirection)
    (res : Except String Unit) : List ServerMsg :=
  (match res with
   | .error e => [ServerMsg.error e]
   | .ok _ => []) ++ [ServerMsg.alertRemoved symbol direction]

/-- The authenticated command dispatch of handle_client: the big match
on the parsed message when user_logged_in is Some id. -/
def dispatch (db : Db) (prices : PriceMap) (id : ℤ) :
    ClientMsg → Db × List ServerMsg
  | .addAlert alert => prepare_new_alert db prices id alert
  | .removeAlert symbol direction =>
    (match remove_alert_res db id symbol direction with
     | .error e => (db, remove_branch_msgs symbol direction (.error e))
     | .ok db' => (db', remove_branch_msgs symbol direction (.ok ())))
  | .loginClient _ _ => (db, [.error "You are arleady logged-in!"])
  | .registerClient _ _ => (db, [.error "You are arleady logged-in!"])
  | .checkPrice symbol =>
    (match check_price_of_stock prices symbol with
     | some current_value => (db, [.priceChecked symbol current_value])
     | none => (db, [.error "Stock not available!"]))
  | .sellStock symbol quantity =>
    (match check_price_of_stock prices symbol with
     | some price =>
       (match sell_stock db id symbol quantity price with
        | .error e => (db, [.error e])
        | .ok db' => (db', [.stockSold symbol quantity]))
     | none => (db, [.error "Stock not available!"]))
  | .buyStock symbol quantity =>
    (match check_price_of_stock prices symbol with
     | some price =>
       (match buy_stock_res db id symbol quantity price with
        | .error e => (db, buy_branch_msgs symbol quantity (.error e))
        | .ok db' => (db', buy_branch_msgs symbol quantity (.ok ())))
     | none => (db, [.error "Stock not available!"]))
  | .getAllClientData =>
    (db, [.allClientData (get_portfolio db id) (get_user_alerts db id)])

/-- One parsed line through handle_client: the authenticated branch
dispatches; the unauthenticated branch accepts only Login and Register
and answers everything else with the not logged in error. -/
def handle_client_msg {H : Type} (cm : CryptoModel H)
    (state : Option ℤ) (db : Db) (prices : PriceMap) :
    Option ClientMsg → Option ℤ × Db × List ServerMsg
  | some m =>
    match state with
    | some id =>
      let out := dispatch db prices id m
      (some id, out.1, out.2)
    | none =>
      match m with
      | .loginClient username password =>
        (match login_user cm db username password with
         | .ok id => (some id, db, [ServerMsg.userLogged])
         | .error _ => (none, db, [.error "Failed to log-in!"]))
      | .registerClient username password =>
        (match register_user cm db username password with
         | .ok db' => (none, db', [ServerMsg.userRegistered])
         | .error _ => (none, db, [.error "Failed to register!"]))
      | _ => (none, db, [.error "User not logged in!"])
  | none =>
    match state with
    | some id => (some id, db, [.error "Wrong command!"])
    | none => (none, db, [.error "User not logged in!"])

/-! ### Sequences of portfolio operations -/

/-- One portfolio mutation: a buy_stock or sell_stock call. -/
inductive TradeOp : Type where
  | buy (user_id : ℤ) (symbol : String) (quantity : ℤ) (price : ℚ)
  | sell (user_id : ℤ) (symbol : String) (quantity : ℤ) (price : ℚ)
deriving DecidableEq, Repr

/-- Apply one operation to the database; a rejected sell mutates nothing. -/
def apply_trade (db : Db) : TradeOp → Db
  | .buy u s q p => buy_stock db u s q p
  | .sell u s q p =>
    match sell_stock db u s q p with
    | .ok db' => db'
    | .error _ => db

/-- Apply a sequence of operations in order. -/
def apply_trades (db : Db) (ops : List TradeOp) : Db :=
  ops.foldl apply_trade db

/-- An operation whose buy quantity is nonnegative (sells unconstrained). -/
def TradeOp.buy_nonneg : TradeOp → Prop
  | .buy _ _ q _ => 0 ≤ q
  | .sell _ _ _ _ => True

instance (op : TradeOp) : Decidable op.buy_nonneg := by
  cases op <;> simp [TradeOp.buy_nonneg] <;> infer_instance

/-- Whether a client message is a Login or Register request. -/
def ClientMsg.is_login_or_register : ClientMsg → Bool
  | .loginClient _ _ => true
  | .registerClient _ _ => true
  | _ => false

/-- The concrete hash model used by witnesses: the identity hash with
equality verification. -/
def witness_crypto : CryptoModel String :=
  ⟨fun p => p, fun s => .ok s, fun p h => p == h⟩

/-- A one-user database used by witnesses. -/
def witness_db : Db :=
  { empty_db with users := [⟨1, "alice", "secret"⟩], next_user_id := 2 }

/-! ### Wire codec, from protocol.rs

Lines are built by format strings (single spaces between fields, one
trailing newline) and parsed by trim followed by split_whitespace.
trim plus split_whitespace is splitWs below: the empty-line early
return of the parsers coincides with an empty token list. -/

/-- Accumulator pass of whitespace splitting: current word chars are
collected reversed in acc and flushed at whitespace or end of input. -/
def wordsAux : List Char → List Char → List String
  | [], acc => if acc.isEmpty then [] else [String.mk acc.reverse]
  | c :: cs, acc =>
    if c.isWhitespace then
      if acc.isEmpty then wordsAux cs []
      else String.mk acc.reverse :: wordsAux cs []
    else wordsAux cs (c :: acc)

/-- split_whitespace of a trimmed line. -/
def splitWs (s : String) : List String := wordsAux s.data []

/-- A string that survives tokenisation as one token: nonempty and free
of whitespace. -/
def IsToken (s : String) : Prop :=
  s.data ≠ [] ∧ ∀ c ∈ s.data, c.isWhitespace = false

instance (s : String) : Decidable (IsToken s) := by
  unfold IsToken
  infer_instance

/-! #### JSON payload of the DATA response

serde_json with default features keeps objects in BTreeMap order, so
both the payload keys and the derived struct fields serialise in
alphabetical order, and floats print with a trailing .0 when integral.
The parser models serde_json only on the grammar this encoder emits
(field order fixed, no interior whitespace, no string escapes); the
real deserializer accepts a superset. -/

/-- ryu float printing of serde_json: integral values keep a ".0". -/
def json_f64_nonneg (q : ℚ) : String :=
  let n := q.num.toNat
  let d := q.den
  if n % d = 0 then toString (n / d) ++ ".0"
  else toString (n / d) ++ "." ++ String.mk (frac_digits 64 (n % d) d)

/-- Signed serde_json float text. -/
def json_f64 (q : ℚ) : String :=
  if q < 0 then "-" ++ json_f64_nonneg (-q) else json_f64_nonneg q

/-- serde serialisation of AlertDirection: the variant name as a JSON
string. -/
def json_direction : AlertDirection → String
  | .above => "\"Above\""
  | .below => "\"Below\""

/-- One serialised PortfolioStock object (fields in BTreeMap order). -/
def json_stock (s : PortfolioStock) : String :=
  "\x7b\"quantity\":" ++ print_i32 s.quantity ++ ",\"symbol\":\"" ++ s.symbol ++
    "\",\"total_price\":" ++ json_f64 s.total_price ++ "\x7d"

/-- One serialised StoredAlert object (fields in BTreeMap order). -/
def json_alert (a : StoredAlert) : String :=
  "\x7b\"direction\":" ++ json_direction a.direction ++ ",\"symbol\":\"" ++
    a.symbol ++ "\",\"threshold\":" ++ json_f64 a.threshold ++ "\x7d"

/-- A JSON array from serialised elements. -/
def json_array (elems : List String) : String :=
  "[" ++ String.intercalate "," elems ++ "]"

/-- The full DATA payload: keys in BTreeMap order (alerts before
stocks). -/
def json_payload (stocks : List PortfolioStock) (alerts : List StoredAlert) :
    String :=
  "\x7b\"alerts\":" ++ json_array (alerts.map json_alert) ++ ",\"stocks\":" ++
    json_array (stocks.map json_stock) ++ "\x7d"

/-- Strip an expected literal character sequence from the input. -/
def drop_lit : List Char → List Char → Option (List Char)
  | [], cs => some cs
  | p :: ps, c :: cs => if c = p then drop_lit ps cs else none
  | _ :: _, [] => none

/-- Parse a JSON string literal without escape sequences. -/
def parse_jstring (cs : List Char) : Option (String × List Char) :=
  match cs with
  | '\x22' :: r =>
    match r.dropWhile (fun c => c ≠ '\x22') with
    | '\x22' :: r2 => some (String.mk (r.takeWhile (fun c => c ≠ '\x22')), r2)
    | _ => none
  | _ => none

/-- Characters that may appear in a JSON number token here. -/
def json_num_char (c : Char) : Bool :=
  c.isDigit || c = '-' || c = '.'

/-- Parse a JSON float through the decimal model. -/
def parse_jnum (cs : List Char) : Option (ℚ × List Char) :=
  (parse_f64 (String.mk (cs.takeWhile json_num_char))).map
    (fun q => (q, cs.dropWhile json_num_char))

/-- Parse a JSON integer through the i32 model. -/
def parse_jint (cs : List Char) : Option (ℤ × List Char) :=
  (parse_i32 (String.mk (cs.takeWhile json_num_char))).map
    (fun n => (n, cs.dropWhile json_num_char))

/-- Parse a serialised AlertDirection variant name. -/
def parse_jdirection (cs : List Char) : Option (AlertDirection × List Char) :=
  match parse_jstring cs with
  | some (s, r) =>
    if s = "Above" then some (.above, r)
    else if s = "Below" then some (.below, r)
    else none
  | none => none

/-- Parse one PortfolioStock object of the emitted grammar. -/
def parse_jstock (cs : List Char) : Option (PortfolioStock × List Char) := do
  let cs1 ← drop_lit "\x7b\"quantity\":".data cs
  let (q, cs2) ← parse_jint cs1
  let cs3 ← drop_lit ",\"symbol\":".data cs2
  let (s, cs4) ← parse_jstring cs3
  let cs5 ← drop_lit ",\"total_price\":".data cs4
  let (t, cs6) ← parse_jnum cs5
  let cs7 ← drop_lit "\x7d".data cs6
  pure (⟨s, q, t⟩, cs7)

/-- Parse one StoredAlert object of the emitted grammar. -/
def parse_jalert (cs : List Char) : Option (StoredAlert × List Char) := do
  let cs1 ← drop_lit "\x7b\"direction\":".data cs
  let (d, cs2) ← parse_jdirection cs1
  let cs3 ← drop_lit ",\"symbol\":".data cs2
  let (s, cs4) ← parse_jstring cs3
  let cs5 ← drop_lit ",\"threshold\":".data cs4
  let (t, cs6) ← parse_jnum cs5
  let cs7 ← drop_lit "\x7d".data cs6
  pure (⟨s, d, t⟩, cs7)

/-- Parse comma separated array elements up to the closing bracket,
with fuel bounded by the input length. -/
def parse_jelems {α : Type} (p : List Char → Option (α × List Char)) :
    ℕ → List Char → Option (List α × List Char)
  | 0, _ => none
  | fuel + 1, cs => do
    let (x, cs1) ← p cs
    match cs1 with
    | ',' :: r => do
      let (xs, cs2) ← parse_jelems p fuel r
      pure (x :: xs, cs2)
    | ']' :: r => pure ([x], r)
    | _ => none

/-- Parse a JSON array of the emitted grammar. -/
def parse_jarray {α : Type} (p : List Char → Option (α × List Char))
    (cs : List Char) : Option (List α × List Char) :=
  match cs with
  | '[' :: ']' :: r => some ([], r)
  | '[' :: r => parse_jelems p (r.length + 1) r
  | _ => none

/-- Parse the whole DATA payload back into stocks and alerts. -/
def parse_json_payload (s : String) :
    Option (List PortfolioStock × List StoredAlert) := do
  let cs1 ← drop_lit "\x7b\"alerts\":".data s.data
  let (alerts, cs2) ← parse_jarray parse_jalert cs1
  let cs3 ← drop_lit ",\"stocks\":".data cs2
  let (stocks, cs4) ← parse_jarray parse_jstock cs3
  let cs5 ← drop_lit "\x7d".data cs4
  if cs5.isEmpty then pure (stocks, alerts) else none

/-! #### Encoding (to_wire) -/

/-- ClientMsg::to_wire from protocol.rs. -/
def ClientMsg.to_wire : ClientMsg → String
  | .addAlert alert =>
    CMD_ADD ++ " " ++ alert.symbol ++ " " ++ alert.direction.as_str ++ " " ++
      print_f64 alert.threshold ++ "\n"
  | .removeAlert symbol direction =>
    CMD_DEL ++ " " ++ symbol ++ " " ++ direction.as_str ++ "\n"
  | .loginClient username password =>
    CMD_LOGIN ++ " " ++ username ++ " " ++ password ++ "\n"
  | .registerClient username password =>
    CMD_REGISTER ++ " " ++ username ++ " " ++ password ++ "\n"
  | .checkPrice symbol => CMD_PRICE ++ " " ++ symbol ++ "\n"
  | .buyStock symbol quantity =>
    CMD_BUY ++ " " ++ symbol ++ " " ++ print_i32 quantity ++ "\n"
  | .sellStock symbol quantity =>
    CMD_SELL ++ " " ++ symbol ++ " " ++ print_i32 quantity ++ "\n"
  | .getAllClientData => CMD_DATA ++ "\n"

/-- ServerMsg::to_wire from protocol.rs. -/
def ServerMsg.to_wire : ServerMsg → String
  | .alertTriggered symbol direction threshold current_price =>
    CMD_TRIGGER ++ " " ++ symbol ++ " " ++ direction.as_str ++ " " ++
      print_f64 threshold ++ " " ++ print_f64 current_price.value ++ "\n"
  | .alertAdded symbol direction threshold =>
    CMD_ALERT_ADDED ++ " " ++ symbol ++ " " ++ direction.as_str ++ " " ++
      print_f64 threshold ++ "\n"
  | .alertRemoved symbol direction =>
    CMD_ALERT_DELETED ++ " " ++ symbol ++ " " ++ direction.as_str ++ "\n"
  | .priceChecked symbol price =>
    CMD_PRICE ++ " " ++ symbol ++ " " ++ print_f64 price ++ "\n"
  | .stockBought symbol quantity =>
    CMD_BOUGHT ++ " " ++ symbol ++ " " ++ print_i32 quantity ++ "\n"
  | .stockSold symbol quantity =>
    CMD_SOLD ++ " " ++ symbol ++ " " ++ print_i32 quantity ++ "\n"
  | .error msg => CMD_ERR ++ " " ++ msg ++ "\n"
  | .allClientData stocks alerts =>
    CMD_DATA ++ " " ++ json_payload stocks alerts ++ "\n"
  | .userLogged => CMD_LOGIN ++ "\n"
  | .userRegistered => CMD_REGISTER ++ "\n"

/-! #### Decoding -/

/-- parts.next() on the token stream. -/
def next : List String → Option (String × List String)
  | [] => none
  | t :: rest => some (t, rest)

/-- parse_client_msg of protocol.rs on the token list: each branch
consumes exactly the tokens it needs and ignores whatever remains. -/
def parse_client_tokens (ts : List String) : Option ClientMsg := do
  let (cmd, p0) ← next ts
  if cmd = CMD_ADD then do
    let (symbol, p1) ← next p0
    let (dtok, p2) ← next p1
    let direction ← AlertDirection.as_msg dtok
    let (ttok, _) ← next p2
    let threshold ← parse_f64 ttok
    pure (.addAlert ⟨symbol, direction, threshold⟩)
  else if cmd = CMD_DEL then do
    let (symbol, p1) ← next p0
    let (dtok, _) ← next p1
    let direction ← AlertDirection.as_msg dtok
    pure (.removeAlert symbol direction)
  else if cmd = CMD_LOGIN then do
    let (username, p1) ← next p0
    let (password, _) ← next p1
    pure (.loginClient username password)
  else if cmd = CMD_REGISTER then do
    let (username, p1) ← next p0
    let (password, _) ← next p1
    pure (.registerClient username password)
  else if cmd = CMD_PRICE then do
    let (symbol, _) ← next p0
    pure (.checkPrice symbol)
  else if cmd = CMD_BUY then do
    let (symbol, p1) ← next p0
    let (qtok, _) ← next p1
    let quantity ← parse_i32 qtok
    pure (.buyStock symbol quantity)
  else if cmd = CMD_SELL then do
    let (symbol, p1) ← next p0
    let (qtok, _) ← next p1
    let quantity ← parse_i32 qtok
    pure (.sellStock symbol quantity)
  else if cmd = CMD_DATA then
    pure .getAllClientData
  else none

/-- parse_client_msg from protocol.rs: trim, reject the empty line,
split on whitespace, read tokens. -/
def parse_client_msg (line : String) : Option ClientMsg :=
  parse_client_tokens (splitWs line)

/-- parse_server_msg of protocol.rs on the token list. -/
def parse_server_tokens (ts : List String) : Option ServerMsg := do
  let (cmd, p0) ← next ts
  if cmd = CMD_TRIGGER then do
    let (symbol, p1) ← next p0
    let (dtok, p2) ← next p1
    let direction ← AlertDirection.as_msg dtok
    let (ttok, p3) ← next p2
    let threshold ← parse_f64 ttok
    let (ctok, _) ← next p3
    let current_value ← parse_f64 ctok
    pure (.alertTriggered symbol direction threshold ⟨current_value⟩)
  else if cmd = CMD_ALERT_ADDED then do
    let (symbol, p1) ← next p0
    let (dtok, p2) ← next p1
    let direction ← AlertDirection.as_msg dtok
    let (ttok, _) ← next p2
    let threshold ← parse_f64 ttok
    pure (.alertAdded symbol direction threshold)
  else if cmd = CMD_ALERT_DELETED then do
    let (symbol, p1) ← next p0
    let (dtok, _) ← next p1
    let direction ← AlertDirection.as_msg dtok
    pure (.alertRemoved symbol direction)
  else if cmd = CMD_PRICE then do
    let (symbol, p1) ← next p0
    let (ptok, _) ← next p1
    let price ← parse_f64 ptok
    pure (.priceChecked symbol price)
  else if cmd = CMD_DATA then do
    let payload ← parse_json_payload (String.intercalate " " p0)
    pure (.allClientData payload.1 payload.2)
  else if cmd = CMD_BOUGHT then do
    let (symbol, p1) ← next p0
    let (qtok, _) ← next p1
    let quantity ← parse_i32 qtok
    pure (.stockBought symbol quantity)
  else if cmd = CMD_SOLD then do
    let (symbol, p1) ← next p0
    let (qtok, _) ← next p1
    let quantity ← parse_i32 qtok
    pure (.stockSold symbol quantity)
  else if cmd = CMD_LOGIN then
    pure .userLogged
  else if cmd = CMD_REGISTER then
    pure .userRegistered
  else if cmd = CMD_ERR then
    pure (.error (String.intercalate " " p0))
  else none

/-- parse_server_msg from protocol.rs. -/
def parse_server_msg (line : String) : Option ServerMsg :=
  parse_server_tokens (splitWs line)

/-- Numeric field values whose decimal text round trips (every value a
wire message can carry was printed by Display, so this is the
representative set of the round trip claim). -/
def QOk (q : ℚ) : Prop :=
  IsToken (print_f64 q) ∧ parse_f64 (print_f64 q) = some q

/-- Integer field values whose decimal text round trips. -/
def IntOk (n : ℤ) : Prop :=
  IsToken (print_i32 n) ∧ parse_i32 (print_i32 n) = some n

/-- Representative client messages: token fields hold single
whitespace-free tokens, numeric fields round trip. -/
def ClientMsg.wf : ClientMsg → Prop
  | .addAlert a => IsToken a.symbol ∧ QOk a.threshold
  | .removeAlert symbol _ => IsToken symbol
  | .loginClient username password => IsToken username ∧ IsToken password
  | .registerClient username password => IsToken username ∧ IsToken password
  | .checkPrice symbol => IsToken symbol
  | .buyStock symbol quantity => IsToken symbol ∧ IntOk quantity
  | .sellStock symbol quantity => IsToken symbol ∧ IntOk quantity
  | .getAllClientData => True

/-- Representative server messages; for the JSON payload the modelled
serde_json codec must round trip the carried lists. -/
def ServerMsg.wf : ServerMsg → Prop
  | .alertTriggered symbol _ threshold current_price =>
    IsToken symbol ∧ QOk threshold ∧ QOk current_price.value
  | .alertAdded symbol _ threshold => IsToken symbol ∧ QOk threshold
  | .alertRemoved symbol _ => IsToken symbol
  | .userLogged => True
  | .userRegistered => True
  | .priceChecked symbol price => IsToken symbol ∧ QOk price
  | .stockBought symbol quantity => IsToken symbol ∧ IntOk quantity
  | .stockSold symbol quantity => IsToken symbol ∧ IntOk quantity
  | .allClientData stocks alerts =>
    IsToken (json_payload stocks alerts) ∧
      parse_json_payload (json_payload stocks alerts) = some (stocks, alerts)
  | .error msg => IsToken msg

/-! ### Helper lemmas -/

/-- update_position rewrites exactly the rows with the given key, so a
lookup after the update returns the updated first match. -/
theorem find_position_update (db : Db) (uid : ℤ) (sym : String) (nq : ℤ) (nt : ℚ) :
    find_position (update_position db uid sym nq nt) uid sym =
      (find_position db uid sym).map
        (fun r => { r with quantity := nq, price_total := nt }) := by
  simp only [find_position, update_position]
  induction db.positions with
  | nil => rfl
  | cons a t ih =>
    rw [List.map_cons]
    by_cases h : (decide (a.user_id = uid) && decide (a.symbol = sym)) = true
    · rw [if_pos h]
      simp only [List.find?, h, Option.map_some']
    · rw [if_neg h]
      simp only [Bool.not_eq_true] at h
      simp only [List.find?, h]
      exact ih

/-- A row of the updated positions table is either an old row or has
the newly written quantity. -/
theorem mem_update_position {r : PositionRow} (db : Db) (uid : ℤ) (sym : String)
    (nq : ℤ) (nt : ℚ) (hr : r ∈ (update_position db uid sym nq nt).positions) :
    r ∈ db.positions ∨ r.quantity = nq := by
  simp only [update_position, List.mem_map] at hr
  obtain ⟨x, hx, hfx⟩ := hr
  by_cases h : (x.user_id = uid && x.symbol = sym) = true
  · right
    rw [if_pos h] at hfx
    rw [← hfx]
  · left
    rw [if_neg h] at hfx
    rwa [← hfx]

/-- The only error add_alert builds is the duplicate alert error. -/
theorem add_alert_error_eq {db : Db} {uid : ℤ} {alert : AlertRequest} {e : String}
    (h : add_alert db uid alert = .error e) : e = "Alert already exists" := by
  unfold add_alert at h
  by_cases hex : alert_exists db uid alert.symbol alert.direction = true
  · rw [if_pos hex] at h
    exact (Except.error.injEq .. ▸ h).symm
  · rw [if_neg hex] at h
    cases h

/-- The errors sell_stock builds: either the missing position error or
the oversell error carrying the held quantity. -/
theorem sell_stock_error_eq {db : Db} {uid : ℤ} {sym : String} {q : ℤ} {p : ℚ}
    {e : String} (h : sell_stock db uid sym q p = .error e) :
    e = "You have no stocks of this company." ∨
      ∃ s, e = ("You have only " ++ s) ++ " actions of given stock!." := by
  unfold sell_stock at h
  split at h
  · injection h with h2
    exact Or.inl h2.symm
  · split at h
    · injection h with h2
      exact Or.inr ⟨_, h2.symm⟩
    · cases h

/-- A string beginning with the oversell text differs from the not
logged in error (their first characters differ). -/
theorem oversell_ne_auth_error (s t : String) :
    ("You have only " ++ s) ++ t ≠ "User not logged in!" := by
  intro h
  have h2 := congrArg String.data h
  rw [String.data_append, String.data_append] at h2
  have hY : ("You have only " : String).data = 'Y' :: "ou have only ".data := rfl
  have hU : ("User not logged in!" : String).data = 'U' :: "ser not logged in!".data := rfl
  rw [hY, hU, List.cons_append, List.cons_append] at h2
  have : 'Y' = 'U' := (List.cons.injEq ..▸ h2).1
  cases this

/-- Structure eta: rebuilding a string from its characters is the
identity. -/
theorem mk_data (s : String) : String.mk s.data = s := rfl

/-- The character list of the single space literal. -/
theorem data_space : (" " : String).data = [' '] := rfl

/-- The character list of the newline literal. -/
theorem data_nl : ("\n" : String).data = ['\n'] := rfl

/-- Running the splitter through whitespace-free characters stacks them
on the accumulator. -/
theorem wordsAux_nonws (tcs : List Char)
    (h : ∀ c ∈ tcs, c.isWhitespace = false) :
    ∀ (rest acc : List Char),
      wordsAux (tcs ++ rest) acc = wordsAux rest (tcs.reverse ++ acc) := by
  induction tcs with
  | nil => intro rest acc; simp
  | cons c cs ih =>
    intro rest acc
    have hc : c.isWhitespace = false := h c (List.mem_cons_self c cs)
    have hcs : ∀ x ∈ cs, x.isWhitespace = false :=
      fun x hx => h x (List.mem_cons_of_mem c hx)
    simp only [List.cons_append, wordsAux, hc, Bool.false_eq_true, if_false]
    refine Eq.trans (ih hcs rest (c :: acc)) ?_
    simp [List.reverse_cons, List.append_assoc]

/-- A space flushes the accumulated word. -/
theorem wordsAux_ws_start (rest acc : List Char) :
    wordsAux (' ' :: rest) acc =
      (if acc.isEmpty then [] else [String.mk acc.reverse]) ++ wordsAux rest [] := by
  by_cases h : acc.isEmpty
  · simp only [wordsAux, h]
    rw [if_pos (show (' ').isWhitespace = true from rfl)]
    simp
  · simp only [wordsAux, h]
    rw [if_pos (show (' ').isWhitespace = true from rfl)]
    simp [h]

/-- A newline flushes the accumulated word. -/
theorem wordsAux_nl_start (rest acc : List Char) :
    wordsAux ('\n' :: rest) acc =
      (if acc.isEmpty then [] else [String.mk acc.reverse]) ++ wordsAux rest [] := by
  by_cases h : acc.isEmpty
  · simp only [wordsAux, h]
    rw [if_pos (show ('\n').isWhitespace = true from rfl)]
    simp
  · simp only [wordsAux, h]
    rw [if_pos (show ('\n').isWhitespace = true from rfl)]
    simp [h]

/-- A token followed by a space splits off as one word. -/
theorem splitWs_token_cons (t : String) (ht : IsToken t) (rest : List Char) :
    wordsAux (t.data ++ ' ' :: rest) [] = t :: wordsAux rest [] := by
  rw [wordsAux_nonws t.data ht.2, wordsAux_ws_start]
  have hne : (t.data.reverse ++ ([] : List Char)).isEmpty = false := by
    simp [List.isEmpty_iff, ht.1]
  rw [hne]
  simp [mk_data]

/-- A token followed by a newline splits off as one word. -/
theorem splitWs_token_nl (t : String) (ht : IsToken t) (rest : List Char) :
    wordsAux (t.data ++ '\n' :: rest) [] = t :: wordsAux rest [] := by
  rw [wordsAux_nonws t.data ht.2, wordsAux_nl_start]
  have hne : (t.data.reverse ++ ([] : List Char)).isEmpty = false := by
    simp [List.isEmpty_iff, ht.1]
  rw [hne]
  simp [mk_data]

/-- Splitting distributes over an interior space. -/
theorem wordsAux_ws_split : ∀ (xs ys acc : List Char),
    wordsAux (xs ++ ' ' :: ys) acc = wordsAux xs acc ++ wordsAux ys [] := by
  intro xs
  induction xs with
  | nil =>
    intro ys acc
    rw [List.nil_append, wordsAux_ws_start]
    rfl
  | cons c cs ih =>
    intro ys acc
    by_cases hc : c.isWhitespace = true
    · by_cases ha : acc.isEmpty
      · simp only [List.cons_append, wordsAux, hc, if_true, ha]
        exact ih ys []
      · rw [Bool.not_eq_true] at ha
        simp only [List.cons_append, wordsAux, hc, if_true, ha, Bool.false_eq_true,
          if_false]
        exact congrArg _ (ih ys [])
    · simp only [Bool.not_eq_true] at hc
      simp only [List.cons_append, wordsAux, hc, Bool.false_eq_true, if_false]
      exact ih ys (c :: acc)

/-- Tokenising a line extended by a space and more text splits into the
tokens of the two parts. -/
theorem splitWs_append_space (a b : String) :
    splitWs (a ++ " " ++ b) = splitWs a ++ splitWs b := by
  show wordsAux (a ++ " " ++ b).data [] = _
  have hdata : (a ++ " " ++ b).data = a.data ++ ' ' :: b.data := by
    rw [String.data_append, String.data_append]
    simp [List.append_assoc]
  rw [hdata, wordsAux_ws_split]
  rfl

/-- The direction text produced by as_str is a single token. -/
theorem as_str_is_token (d : AlertDirection) : IsToken d.as_str := by
  cases d <;> exact (by decide)

/-- as_msg inverts as_str. -/
theorem as_msg_as_str (d : AlertDirection) :
    AlertDirection.as_msg d.as_str = some d := by
  cases d <;> rfl

/-- Joining a single token with spaces returns the token. -/
theorem intercalate_single (s a : String) : String.intercalate s [a] = a := rfl

/-- Tokens of a one token line. -/
theorem splitWs_line1 (c : String) (hc : IsToken c) :
    splitWs (c ++ "\n") = [c] := by
  show wordsAux (c ++ "\n").data [] = _
  have hdata : (c ++ "\n").data = c.data ++ '\n' :: [] := by
    simp only [String.data_append, data_nl]
  rw [hdata, splitWs_token_nl _ hc]
  rfl

/-- Tokens of a two token line. -/
theorem splitWs_line2 (c t1 : String) (hc : IsToken c) (h1 : IsToken t1) :
    splitWs (c ++ " " ++ t1 ++ "\n") = [c, t1] := by
  show wordsAux (c ++ " " ++ t1 ++ "\n").data [] = _
  have hdata : (c ++ " " ++ t1 ++ "\n").data =
      c.data ++ ' ' :: (t1.data ++ '\n' :: []) := by
    simp only [String.data_append, data_space, data_nl, List.append_assoc,
      List.singleton_append, List.cons_append, List.nil_append]
  rw [hdata, splitWs_token_cons _ hc, splitWs_token_nl _ h1]
  rfl

/-- Tokens of a three token line. -/
theorem splitWs_line3 (c t1 t2 : String) (hc : IsToken c) (h1 : IsToken t1)
    (h2 : IsToken t2) :
    splitWs (c ++ " " ++ t1 ++ " " ++ t2 ++ "\n") = [c, t1, t2] := by
  show wordsAux (c ++ " " ++ t1 ++ " " ++ t2 ++ "\n").data [] = _
  have hdata : (c ++ " " ++ t1 ++ " " ++ t2 ++ "\n").data =
      c.data ++ ' ' :: (t1.data ++ ' ' :: (t2.data ++ '\n' :: [])) := by
    simp only [String.data_append, data_space, data_nl, List.append_assoc,
      List.singleton_append, List.cons_append, List.nil_append]
  rw [hdata, splitWs_token_cons _ hc, splitWs_token_cons _ h1,
    splitWs_token_nl _ h2]
  rfl

/-- Tokens of a four token line. -/
theorem splitWs_line4 (c t1 t2 t3 : String) (hc : IsToken c) (h1 : IsToken t1)
    (h2 : IsToken t2) (h3 : IsToken t3) :
    splitWs (c ++ " " ++ t1 ++ " " ++ t2 ++ " " ++ t3 ++ "\n") = [c, t1, t2, t3] := by
  show wordsAux (c ++ " " ++ t1 ++ " " ++ t2 ++ " " ++ t3 ++ "\n").data [] = _
  have hdata : (c ++ " " ++ t1 ++ " " ++ t2 ++ " " ++ t3 ++ "\n").data =
      c.data ++ ' ' :: (t1.data ++ ' ' :: (t2.data ++ ' ' :: (t3.data ++ '\n' :: []))) := by
    simp only [String.data_append, data_space, data_nl, List.append_assoc,
      List.singleton_append, List.cons_append, List.nil_append]
  rw [hdata, splitWs_token_cons _ hc, splitWs_token_cons _ h1,
    splitWs_token_cons _ h2, splitWs_token_nl _ h3]
  rfl

/-- Tokens of a five token line. -/
theorem splitWs_line5 (c t1 t2 t3 t4 : String) (hc : IsToken c) (h1 : IsToken t1)
    (h2 : IsToken t2) (h3 : IsToken t3) (h4 : IsToken t4) :
    splitWs (c ++ " " ++ t1 ++ " " ++ t2 ++ " " ++ t3 ++ " " ++ t4 ++ "\n") =
      [c, t1, t2, t3, t4] := by
  show wordsAux (c ++ " " ++ t1 ++ " " ++ t2 ++ " " ++ t3 ++ " " ++ t4 ++ "\n").data [] = _
  have hdata : (c ++ " " ++ t1 ++ " " ++ t2 ++ " " ++ t3 ++ " " ++ t4 ++ "\n").data =
      c.data ++ ' ' :: (t1.data ++ ' ' ::
        (t2.data ++ ' ' :: (t3.data ++ ' ' :: (t4.data ++ '\n' :: [])))) := by
    simp only [String.data_append, data_space, data_nl, List.append_assoc,
      List.singleton_append, List.cons_append, List.nil_append]
  rw [hdata, splitWs_token_cons _ hc, splitWs_token_cons _ h1,
    splitWs_token_cons _ h2, splitWs_token_cons _ h3, splitWs_token_nl _ h4]
  rfl

/-- The client parser reads only the tokens its command consumes:
appending tokens to a successfully parsed list cannot change the
result. -/
theorem parse_client_tokens_append (ts extra : List String) (m : ClientMsg)
    (h : parse_client_tokens ts = some m) :
    parse_client_tokens (ts ++ extra) = some m := by
  rcases ts with _ | ⟨cmd, p0⟩
  · simp [parse_client_tokens, next] at h
  · rw [List.cons_append]
    simp only [parse_client_tokens, next, Option.bind_eq_bind, Option.some_bind]
      at h ⊢
    by_cases h1 : cmd = CMD_ADD
    · simp only [if_pos h1] at h ⊢
      rcases p0 with _ | ⟨s, p1⟩
      · simp at h
      · rcases p1 with _ | ⟨d, p2⟩
        · simp at h
        · rcases p2 with _ | ⟨t, p3⟩
          · simp at h
          · simp only [List.cons_append, Option.some_bind] at h ⊢
            exact h
    · simp only [if_neg h1] at h ⊢
      by_cases h2 : cmd = CMD_DEL
      · simp only [if_pos h2] at h ⊢
        rcases p0 with _ | ⟨s, p1⟩
        · simp at h
        · rcases p1 with _ | ⟨d, p2⟩
          · simp at h
          · simp only [List.cons_append, Option.some_bind] at h ⊢
            exact h
      · simp only [if_neg h2] at h ⊢
        by_cases h3 : cmd = CMD_LOGIN
        · simp only [if_pos h3] at h ⊢
          rcases p0 with _ | ⟨u, p1⟩
          · simp at h
          · rcases p1 with _ | ⟨p, p2⟩
            · simp at h
            · simp only [List.cons_append, Option.some_bind] at h ⊢
              exact h
        · simp only [if_neg h3] at h ⊢
          by_cases h4 : cmd = CMD_REGISTER
          · simp only [if_pos h4] at h ⊢
            rcases p0 with _ | ⟨u, p1⟩
            · simp at h
            · rcases p1 with _ | ⟨p, p2⟩
              · simp at h
              · simp only [List.cons_append, Option.some_bind] at h ⊢
                exact h
          · simp only [if_neg h4] at h ⊢
            by_cases h5 : cmd = CMD_PRICE
            · simp only [if_pos h5] at h ⊢
              rcases p0 with _ | ⟨s, p1⟩
              · simp at h
              · simp only [List.cons_append, Option.some_bind] at h ⊢
                exact h
            · simp only [if_neg h5] at h ⊢
              by_cases h6 : cmd = CMD_BUY
              · simp only [if_pos h6] at h ⊢
                rcases p0 with _ | ⟨s, p1⟩
                · simp at h
                · rcases p1 with _ | ⟨q, p2⟩
                  · simp at h
                  · simp only [List.cons_append, Option.some_bind] at h ⊢
                    exact h
              · simp only [if_neg h6] at h ⊢
                by_cases h7 : cmd = CMD_SELL
                · simp only [if_pos h7] at h ⊢
                  rcases p0 with _ | ⟨s, p1⟩
                  · simp at h
                  · rcases p1 with _ | ⟨q, p2⟩
                    · simp at h
                    · simp only [List.cons_append, Option.some_bind] at h ⊢
                      exact h
                · simp only [if_neg h7] at h ⊢
                  by_cases h8 : cmd = CMD_DATA
                  · simp only [if_pos h8] at h ⊢
                    exact h
                  · simp only [if_neg h8] at h ⊢
                    simp at h

/-! ### Theorems -/

/-- C3: the alert trigger predicate is strict in both directions,
equality never triggers, and the periodic check in
check_alerts_for_user computes the same predicate as the inline check
in prepare_new_alert. -/
theorem claim_C3_trigger_strict :
    (∀ t p : ℚ, (prepare_new_alert_triggered .above t p = true ↔ p > t) ∧
      (prepare_new_alert_triggered .below t p = true ↔ p < t)) ∧
    (∀ (d : AlertDirection) (t : ℚ), prepare_new_alert_triggered d t t = false) ∧
    (∀ (d : AlertDirection) (t p : ℚ),
      check_alerts_triggered d t p = prepare_new_alert_triggered d t p) := by
  refine ⟨fun t p => ⟨?_, ?_⟩, fun d t => ?_, fun d t p => ?_⟩
  · simp [prepare_new_alert_triggered]
  · simp [prepare_new_alert_triggered]
  · cases d <;> simp [prepare_new_alert_triggered]
  · cases d <;> rfl

/-- C4: buying 5 at 10 then selling 5 at 12 on a fresh position leaves
the row in place with quantity 0 and cost basis 50 - 60 = -10; the cost
basis is cumulative signed cost, not reset on the sell. -/
theorem claim_C4_cost_basis_not_reset :
    buy_stock empty_db 1 "AAPL" 5 10 =
      { empty_db with positions := [⟨1, "AAPL", 5, 50⟩] } ∧
    sell_stock (buy_stock empty_db 1 "AAPL" 5 10) 1 "AAPL" 5 12 =
      .ok { empty_db with positions := [⟨1, "AAPL", 0, -10⟩] } := by
  have h1 : buy_stock empty_db 1 "AAPL" 5 10 =
      { empty_db with positions := [⟨1, "AAPL", 5, 50⟩] } := by
    simp only [buy_stock, find_position, empty_db, List.find?_nil]
    norm_num
  refine ⟨h1, ?_⟩
  rw [h1]
  simp only [sell_stock, find_position, empty_db, update_position, List.find?_cons,
    List.map_cons, List.map_nil]
  norm_num

/-- C1: with a held position of quantity N, selling more than N is
rejected with the error that carries N, and the handler then returns
the database unchanged; selling at most N succeeds and decreases the
quantity by the traded quantity and the cost basis by quantity times
price. -/
theorem claim_C1_sell_guard (db : Db) (prices : PriceMap) (user_id : ℤ)
    (symbol : String) (row : PositionRow) (quantity : ℤ) (price : ℚ)
    (hfind : find_position db user_id symbol = some row) :
    (row.quantity < quantity →
      sell_stock db user_id symbol quantity price =
        .error ("You have only " ++ print_i32 row.quantity ++
          " actions of given stock!.") ∧
      (check_price_of_stock prices symbol = some price →
        dispatch db prices user_id (.sellStock symbol quantity) =
          (db, [.error ("You have only " ++ print_i32 row.quantity ++
            " actions of given stock!.")]))) ∧
    (quantity ≤ row.quantity →
      sell_stock db user_id symbol quantity price =
        .ok (update_position db user_id symbol (row.quantity - quantity)
          (row.price_total - quantity * price)) ∧
      find_position (update_position db user_id symbol (row.quantity - quantity)
          (row.price_total - quantity * price)) user_id symbol =
        some { row with
          quantity := row.quantity - quantity,
          price_total := row.price_total - quantity * price }) := by
  constructor
  · intro hlt
    have hsell : sell_stock db user_id symbol quantity price =
        .error ("You have only " ++ print_i32 row.quantity ++
          " actions of given stock!.") := by
      unfold sell_stock
      rw [hfind]
      simp [hlt]
    refine ⟨hsell, fun hprice => ?_⟩
    simp only [dispatch, hprice, hsell]
  · intro hle
    have hnlt : ¬ row.quantity < quantity := not_lt.mpr hle
    constructor
    · unfold sell_stock
      rw [hfind]
      simp [hnlt]
    · rw [find_position_update, hfind]
      rfl

/-- C1 witness: a held quantity of 3; selling 5 is rejected with the
error carrying 3, the dispatcher returns the database unchanged, and
selling 2 succeeds with quantity 1 and cost basis 30 - 20 = 10. -/
theorem claim_C1_sell_guard_witness :
    sell_stock { empty_db with positions := [⟨1, "AAPL", 3, 30⟩] } 1 "AAPL" 5 10 =
      .error "You have only 3 actions of given stock!." ∧
    dispatch { empty_db with positions := [⟨1, "AAPL", 3, 30⟩] } [("AAPL", 10)] 1
      (.sellStock "AAPL" 5) =
      ({ empty_db with positions := [⟨1, "AAPL", 3, 30⟩] },
        [.error "You have only 3 actions of given stock!."]) ∧
    sell_stock { empty_db with positions := [⟨1, "AAPL", 3, 30⟩] } 1 "AAPL" 2 10 =
      .ok (update_position { empty_db with positions := [⟨1, "AAPL", 3, 30⟩] }
        1 "AAPL" 1 10) := by
  have hfind : find_position { empty_db with positions := [⟨1, "AAPL", 3, 30⟩] }
      1 "AAPL" = some ⟨1, "AAPL", 3, 30⟩ := by
    simp [find_position]
  have h := claim_C1_sell_guard { empty_db with positions := [⟨1, "AAPL", 3, 30⟩] }
    [("AAPL", 10)] 1 "AAPL" ⟨1, "AAPL", 3, 30⟩ 5 10 hfind
  have hstr : ("You have only " ++ print_i32 (3 : ℤ) ++
      " actions of given stock!.") = "You have only 3 actions of given stock!." := by
    rfl
  have hover := h.1 (by norm_num)
  have hprice : check_price_of_stock [("AAPL", 10)] "AAPL" = some 10 := by
    simp [check_price_of_stock]
  have h2 := claim_C1_sell_guard { empty_db with positions := [⟨1, "AAPL", 3, 30⟩] }
    [("AAPL", 10)] 1 "AAPL" ⟨1, "AAPL", 3, 30⟩ 2 10 hfind
  have hok := (h2.2 (by norm_num)).1
  refine ⟨hstr ▸ hover.1, hstr ▸ hover.2 hprice, ?_⟩
  rw [hok]
  norm_num

/-- C2: for a fresh (user, symbol, direction) tuple add_alert inserts
exactly one row; a second identical call is rejected with the alert
exists error, and a rejected call leaves the handler database
unchanged. -/
theorem claim_C2_alert_uniqueness (db : Db) (user_id : ℤ) (alert : AlertRequest) :
    (alert_exists db user_id alert.symbol alert.direction = false →
      add_alert db user_id alert =
        .ok { db with alerts := db.alerts ++
          [⟨user_id, alert.symbol, alert.direction.as_str, alert.threshold⟩] }) ∧
    (∀ db', add_alert db user_id alert = .ok db' →
      add_alert db' user_id alert = .error "Alert already exists") ∧
    (∀ (prices : PriceMap) (current_value : ℚ),
      check_price_of_stock prices alert.symbol = some current_value →
      alert_exists db user_id alert.symbol alert.direction = true →
      (prepare_new_alert db prices user_id alert).1 = db) := by
  refine ⟨fun hfresh => ?_, fun db' hok => ?_, fun prices cv hprice hex => ?_⟩
  · unfold add_alert
    rw [hfresh]
    simp
  · have hfresh : alert_exists db user_id alert.symbol alert.direction = false := by
      by_contra hc
      simp only [Bool.not_eq_false] at hc
      unfold add_alert at hok
      rw [hc] at hok
      cases hok
    have hdb' : db' = { db with alerts := db.alerts ++
        [⟨user_id, alert.symbol, alert.direction.as_str, alert.threshold⟩] } := by
      unfold add_alert at hok
      rw [hfresh] at hok
      simp only [Bool.false_eq_true, if_false] at hok
      injection hok with h2
      exact h2.symm
    have hex : alert_exists db' user_id alert.symbol alert.direction = true := by
      rw [hdb']
      unfold alert_exists
      simp [List.any_append]
    unfold add_alert
    rw [hex]
    simp
  · unfold prepare_new_alert
    rw [hprice]
    have herr : add_alert db user_id alert = .error "Alert already exists" := by
      unfold add_alert
      rw [hex]
      simp
    rw [herr]

/-- C2 witness: adding an alert on a fresh tuple inserts one row, the
identical second call is rejected, and the handler keeps the row set of
the first call. -/
theorem claim_C2_alert_uniqueness_witness :
    add_alert empty_db 1 ⟨"AAPL", .above, 100⟩ =
      .ok { empty_db with alerts := [⟨1, "AAPL", "ABOVE", 100⟩] } ∧
    add_alert { empty_db with alerts := [⟨1, "AAPL", "ABOVE", 100⟩] } 1
      ⟨"AAPL", .above, 100⟩ = .error "Alert already exists" ∧
    (prepare_new_alert { empty_db with alerts := [⟨1, "AAPL", "ABOVE", 100⟩] }
      [("AAPL", 50)] 1 ⟨"AAPL", .above, 100⟩).1 =
      { empty_db with alerts := [⟨1, "AAPL", "ABOVE", 100⟩] } := by
  have h1 := (claim_C2_alert_uniqueness empty_db 1 ⟨"AAPL", .above, 100⟩).1
    (by simp [alert_exists, empty_db])
  have hok : add_alert empty_db 1 ⟨"AAPL", .above, 100⟩ =
      .ok { empty_db with alerts := [⟨1, "AAPL", "ABOVE", 100⟩] } := by
    rw [h1]
    rfl
  have h2 := (claim_C2_alert_uniqueness empty_db 1 ⟨"AAPL", .above, 100⟩).2.1
    { empty_db with alerts := [⟨1, "AAPL", "ABOVE", 100⟩] } hok
  have h3 := (claim_C2_alert_uniqueness
    { empty_db with alerts := [⟨1, "AAPL", "ABOVE", 100⟩] } 1
    ⟨"AAPL", .above, 100⟩).2.2 [("AAPL", 50)] 50
    (by simp [check_price_of_stock])
    (by simp [alert_exists, AlertDirection.as_str])
  exact ⟨hok, h2, h3⟩

/-- C5 counterexample: parse_client_msg accepts a negative i32
quantity, and buy_stock with quantity -1 inserts a position row with
stored quantity -1, so the unconditional nonnegativity claim fails. -/
theorem claim_C5_counterexample :
    ¬ ∀ (ops : List TradeOp), ∀ r ∈ (apply_trades empty_db ops).positions,
        0 ≤ r.quantity := by
  intro h
  have hrun : (apply_trades empty_db [TradeOp.buy 1 "AAPL" (-1) 10]).positions =
      [⟨1, "AAPL", -1, -10⟩] := by
    simp only [apply_trades, List.foldl_cons, List.foldl_nil, apply_trade,
      buy_stock, find_position, empty_db, List.find?_nil]
    norm_num
  have := h [TradeOp.buy 1 "AAPL" (-1) 10] ⟨1, "AAPL", -1, -10⟩ (by rw [hrun]; simp)
  norm_num at this

/-- Preservation of nonnegative stored quantities by one operation
whose buy quantity (if it is a buy) is nonnegative. -/
theorem apply_trade_nonneg (db : Db) (op : TradeOp)
    (hdb : ∀ r ∈ db.positions, 0 ≤ r.quantity) (hop : op.buy_nonneg) :
    ∀ r ∈ (apply_trade db op).positions, 0 ≤ r.quantity := by
  cases op with
  | buy u s q p =>
    simp only [TradeOp.buy_nonneg] at hop
    simp only [apply_trade, buy_stock]
    cases hfind : find_position db u s with
    | some row =>
      intro r hr
      rcases mem_update_position _ _ _ _ _ hr with h | h
      · exact hdb r h
      · rw [h]
        have hrow : 0 ≤ row.quantity :=
          hdb row (List.mem_of_find?_eq_some hfind)
        omega
    | none =>
      intro r hr
      simp only [List.mem_append, List.mem_singleton] at hr
      rcases hr with h | h
      · exact hdb r h
      · rw [h]
        exact hop
  | sell u s q p =>
    simp only [apply_trade]
    cases hs : sell_stock db u s q p with
    | error e => exact hdb
    | ok db' =>
      unfold sell_stock at hs
      split at hs
      · cases hs
      · split at hs
        · cases hs
        · rename_i hlt
          injection hs with hs2
          rw [← hs2]
          intro r hr
          rcases mem_update_position _ _ _ _ _ hr with h | h
          · exact hdb r h
          · rw [h]
            omega

/-- C5 amended: starting from the empty portfolio, any sequence of
buy_stock and sell_stock operations in which every buy quantity is
nonnegative keeps every stored position quantity nonnegative.  (As the
counterexample shows, a buy with a negative wire quantity breaks the
unconditional claim.) -/
theorem claim_C5_amended (ops : List TradeOp)
    (hops : ∀ op ∈ ops, op.buy_nonneg) :
    ∀ r ∈ (apply_trades empty_db ops).positions, 0 ≤ r.quantity := by
  have general : ∀ (l : List TradeOp) (db : Db),
      (∀ r ∈ db.positions, 0 ≤ r.quantity) → (∀ op ∈ l, op.buy_nonneg) →
      ∀ r ∈ (apply_trades db l).positions, 0 ≤ r.quantity := by
    intro l
    induction l with
    | nil =>
      intro db hdb _
      simpa [apply_trades] using hdb
    | cons op rest ih =>
      intro db hdb hl
      simp only [apply_trades, List.foldl_cons]
      exact ih (apply_trade db op)
        (apply_trade_nonneg db op hdb (hl op (List.mem_cons_self op rest)))
        (fun o ho => hl o (List.mem_cons_of_mem op ho))
  exact general ops empty_db (by simp [empty_db]) hops

/-- C5 witness: after a nonnegative buy of 5 from the empty portfolio,
the stored row (quantity 5) is nonnegative, through the amended
invariant applied to the row created by the buy. -/
theorem claim_C5_amended_witness :
    0 ≤ (PositionRow.mk 1 "AAPL" 5 (mkRat 10 1 * ((5 : ℤ) : ℚ))).quantity :=
  claim_C5_amended [TradeOp.buy 1 "AAPL" 5 (mkRat 10 1)]
    (by intro op hop; fin_cases hop; simp [TradeOp.buy_nonneg])
    ⟨1, "AAPL", 5, mkRat 10 1 * ((5 : ℤ) : ℚ)⟩
    (List.mem_singleton_self _)

/-- The authenticated dispatcher never produces the not logged in
error: every command reaching it is handled by its own branch. -/
theorem dispatch_no_auth_error (db : Db) (prices : PriceMap) (id : ℤ)
    (m : ClientMsg) :
    ServerMsg.error "User not logged in!" ∉ (dispatch db prices id m).2 := by
  cases m with
  | addAlert alert =>
    simp only [dispatch, prepare_new_alert]
    cases hp : check_price_of_stock prices alert.symbol with
    | none => simp
    | some cv =>
      cases hadd : add_alert db id alert with
      | ok db' =>
        by_cases ht : prepare_new_alert_triggered alert.direction alert.threshold cv
          <;> simp [ht]
      | error e =>
        have he := add_alert_error_eq hadd
        by_cases ht : prepare_new_alert_triggered alert.direction alert.threshold cv
          <;> simp [ht, he]
  | removeAlert symbol direction =>
    simp [dispatch, remove_alert_res, remove_branch_msgs]
  | loginClient u p => simp [dispatch]
  | registerClient u p => simp [dispatch]
  | checkPrice symbol =>
    simp only [dispatch]
    cases hp : check_price_of_stock prices symbol with
    | none => simp
    | some cv => simp
  | sellStock symbol quantity =>
    simp only [dispatch]
    cases hp : check_price_of_stock prices symbol with
    | none => simp
    | some p =>
      cases hs : sell_stock db id symbol quantity p with
      | ok db' => simp [hs]
      | error e =>
        rcases sell_stock_error_eq hs with he | ⟨s, he⟩
        · simp [hs, he]
        · simp only [hs, he, List.mem_singleton]
          intro hcontra
          have : ("You have only " ++ s) ++ " actions of given stock!." =
              "User not logged in!" := by
            injection hcontra with h2
            exact h2.symm
          exact oversell_ne_auth_error s _ this
  | buyStock symbol quantity =>
    simp only [dispatch]
    cases hp : check_price_of_stock prices symbol with
    | none => simp
    | some p => simp [buy_stock_res, buy_branch_msgs]
  | getAllClientData => simp [dispatch]

/-- C6: while unauthenticated, every decoded command other than Login
and Register yields the not logged in error and the session stays
unauthenticated; a successful Login moves the session to the
authenticated state; once authenticated, the same command is handed to
the dispatcher, which never answers with the not logged in error. -/
theorem claim_C6_auth_gating {H : Type} (cm : CryptoModel H) :
    (∀ (db : Db) (prices : PriceMap) (m : ClientMsg),
      m.is_login_or_register = false →
      handle_client_msg cm none db prices (some m) =
        (none, db, [ServerMsg.error "User not logged in!"])) ∧
    (∀ (db : Db) (prices : PriceMap) (username password : String) (id : ℤ),
      login_user cm db username password = .ok id →
      handle_client_msg cm none db prices (some (.loginClient username password)) =
        (some id, db, [ServerMsg.userLogged])) ∧
    (∀ (db : Db) (prices : PriceMap) (id : ℤ) (m : ClientMsg),
      m.is_login_or_register = false →
      handle_client_msg cm (some id) db prices (some m) =
        (some id, (dispatch db prices id m).1, (dispatch db prices id m).2) ∧
      ServerMsg.error "User not logged in!" ∉ (dispatch db prices id m).2) := by
  refine ⟨fun db prices m hm => ?_, fun db prices u p id hlogin => ?_,
    fun db prices id m hm => ⟨rfl, dispatch_no_auth_error db prices id m⟩⟩
  · cases m <;> first
      | rfl
      | simp_all [ClientMsg.is_login_or_register]
  · simp only [handle_client_msg, hlogin]

/-- C6 witness: a DATA command before login is rejected while the state
stays unauthenticated; a successful login authenticates; the same kind
of command afterwards goes to the dispatcher without the not logged in
error. -/
theorem claim_C6_auth_gating_witness :
    handle_client_msg witness_crypto none witness_db []
      (some .getAllClientData) =
      (none, witness_db, [ServerMsg.error "User not logged in!"]) ∧
    handle_client_msg witness_crypto none witness_db []
      (some (.loginClient "alice" "secret")) =
      (some 1, witness_db, [ServerMsg.userLogged]) ∧
    (handle_client_msg witness_crypto (some 1) witness_db []
      (some .getAllClientData) =
      (some 1, (dispatch witness_db [] 1 .getAllClientData).1,
        (dispatch witness_db [] 1 .getAllClientData).2) ∧
      ServerMsg.error "User not logged in!" ∉
        (dispatch witness_db [] 1 .getAllClientData).2) :=
  ⟨(claim_C6_auth_gating witness_crypto).1 witness_db [] .getAllClientData rfl,
   (claim_C6_auth_gating witness_crypto).2.1 witness_db [] "alice" "secret" 1 rfl,
   (claim_C6_auth_gating witness_crypto).2.2 witness_db [] 1 .getAllClientData rfl⟩

/-- C8: when the database call of a BuyStock or RemoveAlert command
fails, handle_client writes the ERR line and then still writes the
success line, because the success send is not guarded by an else — two
lines for one rejected command, the second a success response. -/
theorem claim_C8_failed_buy_and_remove_two_lines :
    buy_branch_msgs "AAPL" 5 (.error "database failure") =
      [ServerMsg.error "database failure", ServerMsg.stockBought "AAPL" 5] ∧
    remove_branch_msgs "AAPL" .above (.error "database failure") =
      [ServerMsg.error "database failure", ServerMsg.alertRemoved "AAPL" .above] :=
  ⟨rfl, rfl⟩

/-- C9: a login with an unknown username and a login with a known
username but failing password verification produce the same invalid
credentials error value, revealing nothing about which failure
occurred. -/
theorem claim_C9_login_failure_indistinguishable {H : Type} (cm : CryptoModel H)
    (db : Db) (u1 p1 u2 p2 : String) (row : UserRec) (h : H)
    (h1 : find_user db u1 = none)
    (h2 : find_user db u2 = some row)
    (h3 : cm.parse_hash row.password_hash = .ok h)
    (h4 : cm.verify p2 h = false) :
    login_user cm db u1 p1 = .error "Invalid username or password" ∧
    login_user cm db u2 p2 = .error "Invalid username or password" := by
  constructor
  · simp only [login_user, h1]
  · simp only [login_user, h2, h3, h4]
    simp

/-- C9 witness: in a database holding only the user alice, a login as
the unknown bob and a login as alice with a wrong password return the
identical error value. -/
theorem claim_C9_login_failure_witness :
    login_user witness_crypto witness_db "bob" "x" =
      .error "Invalid username or password" ∧
    login_user witness_crypto witness_db "alice" "wrong" =
      .error "Invalid username or password" :=
  claim_C9_login_failure_indistinguishable witness_crypto witness_db
    "bob" "x" "alice" "wrong" ⟨1, "alice", "secret"⟩ "secret" rfl rfl rfl rfl

/-- C7: encode decode round trip for both directions of the protocol,
for representative field values: token fields are whitespace free and
nonempty, numeric fields round trip through their decimal text, and the
DATA payload round trips through the modelled serde_json codec. -/
theorem claim_C7_roundtrip :
    (∀ m : ClientMsg, m.wf → parse_client_msg m.to_wire = some m) ∧
    (∀ m : ServerMsg, m.wf → parse_server_msg m.to_wire = some m) := by
  constructor
  · intro m hwf
    cases m with
    | addAlert a =>
      simp only [parse_client_msg, ClientMsg.to_wire]
      rw [splitWs_line4 CMD_ADD a.symbol a.direction.as_str (print_f64 a.threshold)
        (by decide) hwf.1 (as_str_is_token _) hwf.2.1]
      simp only [parse_client_tokens, next, Option.bind_eq_bind, Option.some_bind,
        CMD_ADD, CMD_DEL, CMD_LOGIN, CMD_REGISTER, CMD_PRICE, CMD_BUY, CMD_SELL,
        CMD_DATA, String.reduceEq, reduceIte, as_msg_as_str, hwf.2.2]
      rfl
    | removeAlert symbol direction =>
      simp only [parse_client_msg, ClientMsg.to_wire]
      rw [splitWs_line3 CMD_DEL symbol direction.as_str (by decide) hwf
        (as_str_is_token _)]
      simp only [parse_client_tokens, next, Option.bind_eq_bind, Option.some_bind,
        CMD_ADD, CMD_DEL, CMD_LOGIN, CMD_REGISTER, CMD_PRICE, CMD_BUY, CMD_SELL,
        CMD_DATA, String.reduceEq, reduceIte, as_msg_as_str]
      rfl
    | loginClient username password =>
      simp only [parse_client_msg, ClientMsg.to_wire]
      rw [splitWs_line3 CMD_LOGIN username password (by decide) hwf.1 hwf.2]
      simp only [parse_client_tokens, next, Option.bind_eq_bind, Option.some_bind,
        CMD_ADD, CMD_DEL, CMD_LOGIN, CMD_REGISTER, CMD_PRICE, CMD_BUY, CMD_SELL,
        CMD_DATA, String.reduceEq, reduceIte]
      rfl
    | registerClient username password =>
      simp only [parse_client_msg, ClientMsg.to_wire]
      rw [splitWs_line3 CMD_REGISTER username password (by decide) hwf.1 hwf.2]
      simp only [parse_client_tokens, next, Option.bind_eq_bind, Option.some_bind,
        CMD_ADD, CMD_DEL, CMD_LOGIN, CMD_REGISTER, CMD_PRICE, CMD_BUY, CMD_SELL,
        CMD_DATA, String.reduceEq, reduceIte]
      rfl
    | checkPrice symbol =>
      simp only [parse_client_msg, ClientMsg.to_wire]
      rw [splitWs_line2 CMD_PRICE symbol (by decide) hwf]
      simp only [parse_client_tokens, next, Option.bind_eq_bind, Option.some_bind,
        CMD_ADD, CMD_DEL, CMD_LOGIN, CMD_REGISTER, CMD_PRICE, CMD_BUY, CMD_SELL,
        CMD_DATA, String.reduceEq, reduceIte]
      rfl
    | buyStock symbol quantity =>
      simp only [parse_client_msg, ClientMsg.to_wire]
      rw [splitWs_line3 CMD_BUY symbol (print_i32 quantity) (by decide) hwf.1 hwf.2.1]
      simp only [parse_client_tokens, next, Option.bind_eq_bind, Option.some_bind,
        CMD_ADD, CMD_DEL, CMD_LOGIN, CMD_REGISTER, CMD_PRICE, CMD_BUY, CMD_SELL,
        CMD_DATA, String.reduceEq, reduceIte, hwf.2.2]
      rfl
    | sellStock symbol quantity =>
      simp only [parse_client_msg, ClientMsg.to_wire]
      rw [splitWs_line3 CMD_SELL symbol (print_i32 quantity) (by decide) hwf.1 hwf.2.1]
      simp only [parse_client_tokens, next, Option.bind_eq_bind, Option.some_bind,
        CMD_ADD, CMD_DEL, CMD_LOGIN, CMD_REGISTER, CMD_PRICE, CMD_BUY, CMD_SELL,
        CMD_DATA, String.reduceEq, reduceIte, hwf.2.2]
      rfl
    | getAllClientData =>
      simp only [parse_client_msg, ClientMsg.to_wire]
      rw [splitWs_line1 CMD_DATA (by decide)]
      simp only [parse_client_tokens, next, Option.bind_eq_bind, Option.some_bind,
        CMD_ADD, CMD_DEL, CMD_LOGIN, CMD_REGISTER, CMD_PRICE, CMD_BUY, CMD_SELL,
        CMD_DATA, String.reduceEq, reduceIte]
      rfl
  · intro m hwf
    cases m with
    | alertTriggered symbol direction threshold current_price =>
      simp only [parse_server_msg, ServerMsg.to_wire]
      rw [splitWs_line5 CMD_TRIGGER symbol direction.as_str (print_f64 threshold)
        (print_f64 current_price.value) (by decide) hwf.1 (as_str_is_token _)
        hwf.2.1.1 hwf.2.2.1]
      simp only [parse_server_tokens, next, Option.bind_eq_bind, Option.some_bind,
        CMD_TRIGGER, CMD_ALERT_ADDED, CMD_ALERT_DELETED, CMD_PRICE, CMD_DATA,
        CMD_BOUGHT, CMD_SOLD, CMD_LOGIN, CMD_REGISTER, CMD_ERR, String.reduceEq,
        reduceIte, as_msg_as_str, hwf.2.1.2, hwf.2.2.2]
      rfl
    | alertAdded symbol direction threshold =>
      simp only [parse_server_msg, ServerMsg.to_wire]
      rw [splitWs_line4 CMD_ALERT_ADDED symbol direction.as_str
        (print_f64 threshold) (by decide) hwf.1 (as_str_is_token _) hwf.2.1]
      simp only [parse_server_tokens, next, Option.bind_eq_bind, Option.some_bind,
        CMD_TRIGGER, CMD_ALERT_ADDED, CMD_ALERT_DELETED, CMD_PRICE, CMD_DATA,
        CMD_BOUGHT, CMD_SOLD, CMD_LOGIN, CMD_REGISTER, CMD_ERR, String.reduceEq,
        reduceIte, as_msg_as_str, hwf.2.2]
      rfl
    | alertRemoved symbol direction =>
      simp only [parse_server_msg, ServerMsg.to_wire]
      rw [splitWs_line3 CMD_ALERT_DELETED symbol direction.as_str (by decide) hwf
        (as_str_is_token _)]
      simp only [parse_server_tokens, next, Option.bind_eq_bind, Option.some_bind,
        CMD_TRIGGER, CMD_ALERT_ADDED, CMD_ALERT_DELETED, CMD_PRICE, CMD_DATA,
        CMD_BOUGHT, CMD_SOLD, CMD_LOGIN, CMD_REGISTER, CMD_ERR, String.reduceEq,
        reduceIte, as_msg_as_str]
      rfl
    | priceChecked symbol price =>
      simp only [parse_server_msg, ServerMsg.to_wire]
      rw [splitWs_line3 CMD_PRICE symbol (print_f64 price) (by decide) hwf.1 hwf.2.1]
      simp only [parse_server_tokens, next, Option.bind_eq_bind, Option.some_bind,
        CMD_TRIGGER, CMD_ALERT_ADDED, CMD_ALERT_DELETED, CMD_PRICE, CMD_DATA,
        CMD_BOUGHT, CMD_SOLD, CMD_LOGIN, CMD_REGISTER, CMD_ERR, String.reduceEq,
        reduceIte, hwf.2.2]
      rfl
    | allClientData stocks alerts =>
      simp only [parse_server_msg, ServerMsg.to_wire]
      rw [splitWs_line2 CMD_DATA (json_payload stocks alerts) (by decide) hwf.1]
      simp only [parse_server_tokens, next, Option.bind_eq_bind, Option.some_bind,
        CMD_TRIGGER, CMD_ALERT_ADDED, CMD_ALERT_DELETED, CMD_PRICE, CMD_DATA,
        CMD_BOUGHT, CMD_SOLD, CMD_LOGIN, CMD_REGISTER, CMD_ERR, String.reduceEq,
        reduceIte, intercalate_single, hwf.2]
      rfl
    | stockBought symbol quantity =>
      simp only [parse_server_msg, ServerMsg.to_wire]
      rw [splitWs_line3 CMD_BOUGHT symbol (print_i32 quantity) (by decide) hwf.1
        hwf.2.1]
      simp only [parse_server_tokens, next, Option.bind_eq_bind, Option.some_bind,
        CMD_TRIGGER, CMD_ALERT_ADDED, CMD_ALERT_DELETED, CMD_PRICE, CMD_DATA,
        CMD_BOUGHT, CMD_SOLD, CMD_LOGIN, CMD_REGISTER, CMD_ERR, String.reduceEq,
        reduceIte, hwf.2.2]
      rfl
    | stockSold symbol quantity =>
      simp only [parse_server_msg, ServerMsg.to_wire]
      rw [splitWs_line3 CMD_SOLD symbol (print_i32 quantity) (by decide) hwf.1
        hwf.2.1]
      simp only [parse_server_tokens, next, Option.bind_eq_bind, Option.some_bind,
        CMD_TRIGGER, CMD_ALERT_ADDED, CMD_ALERT_DELETED, CMD_PRICE, CMD_DATA,
        CMD_BOUGHT, CMD_SOLD, CMD_LOGIN, CMD_REGISTER, CMD_ERR, String.reduceEq,
        reduceIte, hwf.2.2]
      rfl
    | userLogged =>
      simp only [parse_server_msg, ServerMsg.to_wire]
      rw [splitWs_line1 CMD_LOGIN (by decide)]
      simp only [parse_server_tokens, next, Option.bind_eq_bind, Option.some_bind,
        CMD_TRIGGER, CMD_ALERT_ADDED, CMD_ALERT_DELETED, CMD_PRICE, CMD_DATA,
        CMD_BOUGHT, CMD_SOLD, CMD_LOGIN, CMD_REGISTER, CMD_ERR, String.reduceEq,
        reduceIte]
      rfl
    | userRegistered =>
      simp only [parse_server_msg, ServerMsg.to_wire]
      rw [splitWs_line1 CMD_REGISTER (by decide)]
      simp only [parse_server_tokens, next, Option.bind_eq_bind, Option.some_bind,
        CMD_TRIGGER, CMD_ALERT_ADDED, CMD_ALERT_DELETED, CMD_PRICE, CMD_DATA,
        CMD_BOUGHT, CMD_SOLD, CMD_LOGIN, CMD_REGISTER, CMD_ERR, String.reduceEq,
        reduceIte]
      rfl
    | error msg =>
      simp only [parse_server_msg, ServerMsg.to_wire]
      rw [splitWs_line2 CMD_ERR msg (by decide) hwf]
      simp only [parse_server_tokens, next, Option.bind_eq_bind, Option.some_bind,
        CMD_TRIGGER, CMD_ALERT_ADDED, CMD_ALERT_DELETED, CMD_PRICE, CMD_DATA,
        CMD_BOUGHT, CMD_SOLD, CMD_LOGIN, CMD_REGISTER, CMD_ERR, String.reduceEq,
        reduceIte, intercalate_single]
      rfl

set_option maxRecDepth 8192 in
/-- C7 witness: a concrete ADD request and a concrete DATA response,
with a mixed numeric threshold, both round trip. -/
theorem claim_C7_roundtrip_witness :
    parse_client_msg (ClientMsg.addAlert ⟨"AAPL", .above, mkRat 401 2⟩).to_wire =
      some (ClientMsg.addAlert ⟨"AAPL", .above, mkRat 401 2⟩) ∧
    parse_server_msg (ServerMsg.allClientData [⟨"AAPL", 2, mkRat 123 1⟩]
      [⟨"AAPL", .above, mkRat 150 1⟩]).to_wire =
      some (ServerMsg.allClientData [⟨"AAPL", 2, mkRat 123 1⟩]
        [⟨"AAPL", .above, mkRat 150 1⟩]) :=
  ⟨claim_C7_roundtrip.1 (ClientMsg.addAlert ⟨"AAPL", .above, mkRat 401 2⟩)
    (by exact ⟨by decide, by decide, by decide⟩),
   claim_C7_roundtrip.2 (ServerMsg.allClientData [⟨"AAPL", 2, mkRat 123 1⟩]
      [⟨"AAPL", .above, mkRat 150 1⟩])
    (by exact ⟨by decide, by decide⟩)⟩

/-- C10: appending further whitespace separated tokens to a
syntactically complete client command line does not change the decode
result. -/
theorem claim_C10_trailing_tokens (line extra : String) (m : ClientMsg)
    (h : parse_client_msg line = some m) :
    parse_client_msg (line ++ " " ++ extra) = some m := by
  unfold parse_client_msg at h ⊢
  rw [splitWs_append_space]
  exact parse_client_tokens_append _ _ _ h

/-- C10 witness: DATA with a junk token still decodes to the data
request, and DEL AAPL ABOVE with a junk token still decodes to the
remove request. -/
theorem claim_C10_trailing_tokens_witness :
    parse_client_msg ("DATA" ++ " " ++ "extra") = some .getAllClientData ∧
    parse_client_msg ("DEL AAPL ABOVE" ++ " " ++ "junk") =
      some (.removeAlert "AAPL" .above) :=
  ⟨claim_C10_trailing_tokens "DATA" "extra" _ (by decide),
   claim_C10_trailing_tokens "DEL AAPL ABOVE" "junk" _ (by decide)⟩

end StockServer
